import Mathlib

/-!
Verification of the process activity provider (`chaoslib/provider/process.py`).

The module exposes two functions:

* `run_process_activity(activity, configuration, secrets)` — resolves the
  executable, substitutes dynamic arguments, flattens them into an argument
  vector, spawns the child process under an optional timeout and classifies
  the outcome against the expected return code;
* `validate_process_activity(activity)` — static, pre-execution validation
  of the activity definition.

We embed the code shallowly.  Python's dynamically typed values are
modelled by `PyVal` (floats are modelled exactly as rationals — the only
float operation used is `int()` truncation, on which the two models agree
for all inputs considered here).  The OS interface (`shutil.which`,
`os.access`, `subprocess.run`) is modelled by explicit oracles (`Fs` for
the filesystem, a `proc` function for the subprocess boundary), and the
external `substitute` collaborator is a function parameter.  Raised
exceptions are modelled with `Except`.
-/

set_option autoImplicit false

namespace ChaosProcess

/-- A dynamically typed Python value, as they occur in activity mappings. -/
inductive PyVal where
  | none
  | bool (b : Bool)
  | int (n : ℤ)
  | float (q : ℚ)
  | str (s : String)
deriving DecidableEq

/-- Python truthiness (`bool(v)`) of a `PyVal`. -/
def PyVal.truthy : PyVal → Bool
  | .none => false
  | .bool b => b
  | .int n => n != 0
  | .float q => q != 0
  | .str s => s != ""

/-- `isinstance(v, int)` — note that in Python `bool` is a subclass of
`int`, so booleans pass this test. -/
def PyVal.isInstInt : PyVal → Bool
  | .int _ => true
  | .bool _ => true
  | _ => false

/-- Value of a nonempty digit string, `none` if some character is not a
decimal digit or the string is empty. -/
def digitsVal : List Char → Option ℕ
  | [] => Option.none
  | cs =>
    if cs.all Char.isDigit then
      Option.some (cs.foldl (fun n c => 10 * n + (c.toNat - '0'.toNat)) 0)
    else Option.none

/-- Strip leading and trailing whitespace from a character list. -/
def stripWs (cs : List Char) : List Char :=
  ((cs.dropWhile Char.isWhitespace).reverse.dropWhile
    Char.isWhitespace).reverse

/-- Python `int(s)` on a string: surrounding whitespace is stripped, an
optional sign precedes a nonempty run of decimal digits; anything else
(e.g. `"3.9"`, `"abc"`, `""`) raises `ValueError`, modelled as `none`. -/
def parseIntStr (s : String) : Option ℤ :=
  match stripWs s.data with
  | '-' :: rest => (digitsVal rest).map (fun n => -(n : ℤ))
  | '+' :: rest => (digitsVal rest).map (fun n => (n : ℤ))
  | cs => (digitsVal cs).map (fun n => (n : ℤ))

/-- Truncation of a rational toward zero, which is how Python's `int()`
rounds a float (`int(3.9) == 3`, `int(-3.9) == -3`). -/
def truncToward0 (q : ℚ) : ℤ := q.num.tdiv (q.den : ℤ)

/-- Python's built-in `int(v)` conversion: identity on integers, `0`/`1`
on booleans, truncation toward zero on floats, digit-string parsing on
strings; everything else (including `None`) raises
`TypeError`/`ValueError`, modelled as `none`. -/
def pyInt : PyVal → Option ℤ
  | .int n => Option.some n
  | .bool b => Option.some (if b then 1 else 0)
  | .float q => Option.some (truncToward0 q)
  | .str s => parseIntStr s
  | .none => Option.none

/-- The provider descriptor of a process activity.  `path` is `none` when
the `"path"` key is absent (`provider.get("path")` then yields Python
`None`).  `arguments` is the ordered list of key/value pairs of the
arguments mapping (Python dicts preserve insertion order).  `timeout` is
`provider.get("timeout", None)`. -/
structure Provider where
  path : Option String
  arguments : List (PyVal × PyVal)
  timeout : Option PyVal
deriving DecidableEq

/-- An activity.  `expected_return_code` is `none` when the key is absent
from the activity mapping; a stored Python `None` is `some PyVal.none`. -/
structure Activity where
  name : String
  provider : Provider
  expected_return_code : Option PyVal
deriving DecidableEq

/-- The filesystem / OS oracle: `which` models `shutil.which` (resolution
of an executable name against the search path, returning the resolved
path or `None`), `access` models `os.access(p, os.X_OK)`. -/
structure Fs where
  which : String → Option String
  access : String → Bool

/-- Configuration and secrets mappings are opaque to this module; only
their truthiness (non-emptiness) is inspected, so we model them as
association lists.  A Python `None` argument is modelled as `[]` (both
are falsy). -/
abbrev ConfMap := List (String × PyVal)

/-- The `substitute` collaborator: external to this module (imported from
the wider library), so it is a parameter of the embedding. -/
abbrev SubstFn := List (PyVal × PyVal) → ConfMap → ConfMap → List (PyVal × PyVal)

/-- `itertools.chain.from_iterable(arguments.items())`: emit key then
value for each pair, in iteration order. -/
def flattenArgs (args : List (PyVal × PyVal)) : List PyVal :=
  (args.map (fun kv => [kv.1, kv.2])).flatten

/-- The filter `p not in (None, "")` applied to each flattened token. -/
def keepToken (p : PyVal) : Bool :=
  !(p == PyVal.none || p == PyVal.str "")

/-- The arguments mapping actually used by `run_process_activity`:
`if configuration or secrets: arguments = substitute(arguments,
configuration, secrets)` — substitution is applied exactly when either
mapping is truthy (non-empty). -/
def effectiveArguments (subst : SubstFn) (configuration secrets : ConfMap)
    (args : List (PyVal × PyVal)) : List (PyVal × PyVal) :=
  if !configuration.isEmpty || !secrets.isEmpty then
    subst args configuration secrets
  else args

/-- The flattened, filtered command-line tokens `run_process_activity`
computes (lines 41–42 of the source), before the executable path is
prepended. -/
def processTokens (subst : SubstFn) (configuration secrets : ConfMap)
    (a : Activity) : List PyVal :=
  (flattenArgs (effectiveArguments subst configuration secrets
    a.provider.arguments)).filter keepToken

/-- `shutil.which(provider["path"])` as the Python value placed at
argument zero: the resolved path string, or `None` when resolution
fails. -/
def whichVal (fs : Fs) (p : String) : PyVal :=
  match fs.which p with
  | Option.some s => PyVal.str s
  | Option.none => PyVal.none

/-- Outcome of the `subprocess.run` boundary: either the wall-clock
deadline elapsed first (`subprocess.TimeoutExpired`) or the child
terminated with a return code and captured output buffers. -/
inductive ProcResult where
  | timedOut
  | completed (returncode : ℤ) (stdout stderr : String)
deriving DecidableEq

/-- The subprocess oracle: given the argument vector (argv0 included) and
the timeout value, what the spawned process does. -/
abbrev ProcFn := List String → Option PyVal → ProcResult

/-- Errors surfaced by `run_process_activity`: `failedActivity` models
the `FailedActivity` exception; `pyError` models any other Python
exception escaping the function (`TypeError`/`ValueError` from `int()`,
`KeyError` on a missing `"path"` key, `TypeError` from joining/spawning a
non-string argument vector).  `InvalidActivity` is never raised here. -/
inductive RunError where
  | failedActivity (msg : String)
  | pyError (msg : String)
deriving DecidableEq

/-- Message of the `FailedActivity` raised on a return-code mismatch
(actual code `c`, expected code `e`, captured stdout `o`, stderr `r`). -/
def mismatchMsg (c e : ℤ) (o r : String) : String :=
  "process activity failed with return code " ++ toString c ++
    " (expected " ++ toString e ++ ")\nSTDOUT: " ++ o ++
    "\nSTDERR: " ++ r

/-- All elements of the argument vector as strings, or `none` if any is
not a string (in which case the source's `" ".join(args)` — and
`subprocess.run` itself — raises `TypeError`). -/
def allStrings : List PyVal → Option (List String)
  | [] => Option.some []
  | PyVal.str s :: rest => (allStrings rest).map (fun l => s :: l)
  | _ => Option.none

/-- Shallow embedding of `run_process_activity(activity, configuration,
secrets)`.  Pure effects are threaded through the `subst`, `proc` and
`fs` oracles; exceptions become `Except.error`. -/
def run_process_activity (subst : SubstFn) (proc : ProcFn) (fs : Fs)
    (a : Activity) (configuration secrets : ConfMap) :
    Except RunError (ℤ × String × String) :=
  -- expected_return_code = int(activity.get("expected_return_code", 0))
  match pyInt (a.expected_return_code.getD (PyVal.int 0)) with
  | Option.none => Except.error (RunError.pyError
      "int() argument is not an integer literal or number")
  | Option.some expected_return_code =>
    let timeout := a.provider.timeout
    let tokens := processTokens subst configuration secrets a
    -- args.insert(0, shutil.which(provider["path"]))
    match a.provider.path with
    | Option.none => Except.error (RunError.pyError "KeyError: path")
    | Option.some p =>
      let args := whichVal fs p :: tokens
      -- " ".join(args) and subprocess.run require every arg to be a str
      match allStrings args with
      | Option.none => Except.error (RunError.pyError
          "TypeError: expected str instance in argument list")
      | Option.some argv =>
        match proc argv timeout with
        | ProcResult.timedOut => Except.error (RunError.failedActivity
            "process activity took too long to complete")
        | ProcResult.completed rc out err =>
          if expected_return_code != rc then
            Except.error (RunError.failedActivity
              (mismatchMsg rc expected_return_code out err))
          else
            Except.ok (rc, out, err)

/-- Python's `format` of an `Optional[str]`: `None` prints as `"None"`. -/
def pyFormatOpt : Option String → String
  | Option.none => "None"
  | Option.some s => s

/-- Shallow embedding of `validate_process_activity(activity)`.  The
error string is the message of the raised `InvalidActivity`; every raise
in the source is an `InvalidActivity`, so no other error kind appears.
Note the source rebinds `path = shutil.which(path)` before the
resolvability check, so the message of check 3 formats the rebound value
(`None` in that branch), not the originally declared path. -/
def validate_process_activity (fs : Fs) (a : Activity) :
    Except String Unit :=
  let name := a.name
  let expected_return_code := a.expected_return_code.getD PyVal.none
  -- if expected_return_code and not isinstance(expected_return_code, int)
  if expected_return_code.truthy && !expected_return_code.isInstInt then
    Except.error "return code of a process activity must be an integer"
  else
    -- path = provider.get("path"); if not path: ...
    match a.provider.path with
    | Option.none => Except.error "a process activity must have a path"
    | Option.some p =>
      if p = "" then
        Except.error "a process activity must have a path"
      else
        -- path = shutil.which(path); if not path: ...
        match fs.which p with
        | Option.none => Except.error
            ("path '" ++ pyFormatOpt Option.none ++
              "' cannot be found, in activity '" ++ name ++ "'")
        | Option.some path =>
          -- if not os.access(path, os.X_OK): ...
          if !fs.access path then
            Except.error
              ("no access permission to '" ++ path ++
                "', in activity '" ++ name ++ "'")
          else
            Except.ok ()

/-! ## Auxiliary notions used by the theorems -/

/-- `sub` occurs as a contiguous substring of `s`. -/
def strContains (s sub : String) : Prop :=
  ∃ x y, s.data = x ++ sub.data ++ y

/-- Check 1 of the validator, as a standalone predicate: the stored
`expected_return_code` is truthy and not of integer type.  (Falsy values
— absent, `None`, `0`, `""`, `0.0`, `False` — never trigger it.) -/
def ercCheckFails (a : Activity) : Bool :=
  let v := a.expected_return_code.getD PyVal.none
  v.truthy && !v.isInstInt

/-- Check 2 of the validator, as a standalone predicate: the provider's
`path` is absent or the empty string (`if not path`). -/
def pathMissing (a : Activity) : Bool :=
  match a.provider.path with
  | Option.none => true
  | Option.some p => p == ""

/-- The identity substitution function (used for concrete instances). -/
def idSubst : SubstFn := fun args _ _ => args

/-- A filesystem on which every name resolves to itself and everything
is executable. -/
def fsAll : Fs := ⟨fun s => Option.some s, fun _ => true⟩

/-- A filesystem on which nothing resolves. -/
def fsNone : Fs := ⟨fun _ => Option.none, fun _ => false⟩

/-- The arguments mapping of the spec's flattening example:
`{"--flag": "", "--name": "x", "--skip": None}` in insertion order. -/
def exampleArgs : List (PyVal × PyVal) :=
  [(PyVal.str "--flag", PyVal.str ""),
   (PyVal.str "--name", PyVal.str "x"),
   (PyVal.str "--skip", PyVal.none)]

/-- An activity carrying the example arguments mapping. -/
def actFlatten : Activity :=
  ⟨"c1", ⟨Option.some "/bin/true", exampleArgs, Option.none⟩, Option.none⟩

/-- On a nonnegative rational, truncation toward zero agrees with the
floor. -/
theorem truncToward0_of_nonneg (q : ℚ) (h : 0 ≤ q) :
    truncToward0 q = ⌊q⌋ := by
  unfold truncToward0
  rw [Int.tdiv_eq_ediv (Rat.num_nonneg.mpr h) (Int.natCast_nonneg _)]
  exact (Rat.floor_def).symm

/-- `int()` of the float `3.9` is `3` (truncation toward zero). -/
theorem pyInt_float_39_10 :
    pyInt (PyVal.float (39 / 10 : ℚ)) = Option.some 3 := by
  show Option.some (truncToward0 (39 / 10 : ℚ)) = Option.some 3
  rw [truncToward0_of_nonneg _ (by norm_num)]
  have h : ((39 : ℤ) : ℚ) / ((10 : ℕ) : ℚ) = (39 / 10 : ℚ) := by norm_num
  rw [← h, Rat.floor_intCast_div_natCast]
  decide

/-! ## Claim C1 — argument flattening of the example mapping -/

/-- C1 (counterexample): on the mapping `{"--flag": "", "--name": "x",
"--skip": None}`, the flattening step of `run` does NOT produce
`["--name", "x"]` — the filter drops only the tokens that are themselves
`None` or `""`, so the keys `"--flag"` and `"--skip"` survive. -/
theorem C1_flatten_counterexample :
    processTokens idSubst [] [] actFlatten ≠
      [PyVal.str "--name", PyVal.str "x"] := by decide

/-- C1 (amended): on the mapping `{"--flag": "", "--name": "x",
"--skip": None}`, the flattening step of `run` (emit key then value in
iteration order, then remove every token that is `None` or `""`)
produces exactly `["--flag", "--name", "x", "--skip"]`: a `None` or
empty-string value suppresses only the value token, never its key. -/
theorem C1_flatten_example :
    processTokens idSubst [] [] actFlatten =
      [PyVal.str "--flag", PyVal.str "--name", PyVal.str "x",
       PyVal.str "--skip"] := by decide

/-! ## Claim C2 — non-integer `expected_return_code` in `validate` -/

/-- An activity whose `expected_return_code` is present, not of integer
type, but falsy (the empty string). -/
def actFalsyErc : Activity :=
  ⟨"c2", ⟨Option.some "/bin/sh", [], Option.none⟩,
    Option.some (PyVal.str "")⟩

/-- C2 (counterexample): with `expected_return_code = ""` — present and
not of integer type — `validate` succeeds instead of raising
`InvalidActivity`: the source guards the type check with Python
truthiness (`if expected_return_code and ...`), so falsy values skip
it. -/
theorem C2_nonint_erc_counterexample :
    actFalsyErc.expected_return_code = Option.some (PyVal.str "") ∧
    (PyVal.str "").isInstInt = false ∧
    validate_process_activity fsAll actFalsyErc = Except.ok () :=
  ⟨rfl, rfl, rfl⟩

/-- C2 (amended): for every activity whose `expected_return_code` is
present, truthy, and not of integer type, `validate` raises
`InvalidActivity` with the message "return code of a process activity
must be an integer"; a falsy non-integer value is accepted silently. -/
theorem C2_truthy_nonint_erc (fs : Fs) (a : Activity) (v : PyVal)
    (hv : a.expected_return_code = Option.some v)
    (ht : v.truthy = true) (hi : v.isInstInt = false) :
    validate_process_activity fs a =
      Except.error "return code of a process activity must be an integer" := by
  unfold validate_process_activity
  rw [hv]
  simp [ht, hi]

/-- An activity whose `expected_return_code` is the (truthy, non-integer)
string `"x"`. -/
def actStrErc : Activity :=
  ⟨"c2w", ⟨Option.some "/bin/sh", [], Option.none⟩,
    Option.some (PyVal.str "x")⟩

/-- Witness for `C2_truthy_nonint_erc` at a concrete activity. -/
theorem C2_truthy_nonint_erc_witness :
    validate_process_activity fsAll actStrErc =
      Except.error "return code of a process activity must be an integer" :=
  C2_truthy_nonint_erc fsAll actStrErc (PyVal.str "x") rfl (by decide)
    (by decide)

/-! ## Claim C3 — the validator's four checks, in order -/

/-- C3: `validate` always either returns unit or fails with an
`InvalidActivity` message (the embedding's error type carries exactly the
`InvalidActivity` messages — no other exception escapes), and its result
is given by the four checks in their fixed order, the first violated
check being the one reported: (1) `expected_return_code` type, (2) path
empty or absent, (3) path unresolvable, (4) no execute permission. -/
theorem C3_validate_check_order (fs : Fs) (a : Activity) :
    validate_process_activity fs a =
      if ercCheckFails a then
        Except.error "return code of a process activity must be an integer"
      else if pathMissing a then
        Except.error "a process activity must have a path"
      else
        match fs.which (a.provider.path.getD "") with
        | Option.none =>
          Except.error
            ("path 'None' cannot be found, in activity '" ++ a.name ++ "'")
        | Option.some rp =>
          if fs.access rp then Except.ok ()
          else
            Except.error
              ("no access permission to '" ++ rp ++ "', in activity '" ++
                a.name ++ "'")
    := by
  unfold validate_process_activity ercCheckFails pathMissing
  cases hp : a.provider.path with
  | none => simp [pyFormatOpt]
  | some p =>
    by_cases hpe : p = ""
    · simp [hpe]
    · simp only [hpe, pyFormatOpt]
      cases hw : fs.which p with
      | none => simp [hpe, hw]
      | some rp => by_cases hx : fs.access rp <;> simp [hpe, hw, hx]

/-! ## Claim C8 — determinism of `validate` -/

/-- C8: `validate` is deterministic and free of hidden state: its outcome
is a pure function of the activity fields it reads (`name`,
`provider.path`, `expected_return_code`) and the filesystem state, so two
calls on the same unchanged activity with the same filesystem state give
the same outcome.  (The embedding is a pure function, mirroring the
source, which only reads its inputs and never mutates them.) -/
theorem C8_validate_deterministic (fs : Fs) (a b : Activity)
    (hn : a.name = b.name) (hp : a.provider.path = b.provider.path)
    (he : a.expected_return_code = b.expected_return_code) :
    validate_process_activity fs a = validate_process_activity fs b := by
  unfold validate_process_activity
  rw [hn, hp, he]

/-- Two activities agreeing on the fields `validate` reads but differing
in `arguments` and `timeout`. -/
def actDetA : Activity :=
  ⟨"n", ⟨Option.some "/bin/sh", [(PyVal.str "--a", PyVal.str "1")],
    Option.some (PyVal.int 5)⟩, Option.none⟩

/-- Companion of `actDetA` with different arguments and timeout. -/
def actDetB : Activity :=
  ⟨"n", ⟨Option.some "/bin/sh", [], Option.none⟩, Option.none⟩

/-- Witness for `C8_validate_deterministic` at concrete activities. -/
theorem C8_validate_deterministic_witness :
    validate_process_activity fsAll actDetA =
      validate_process_activity fsAll actDetB :=
  C8_validate_deterministic fsAll actDetA actDetB rfl rfl rfl

/-! ## Claim C9 — the unresolvable-path message interpolates `None` -/

/-- An activity named `x` whose declared path is the (unresolvable)
string `"a"`. -/
def actPathA : Activity :=
  ⟨"x", ⟨Option.some "a", [], Option.none⟩, Option.none⟩

/-- C9 (counterexample): on an unresolvable declared path `"a"`, the
validator's message is `"path 'None' cannot be found, in activity 'x'"`
— but that message DOES contain the originally declared path string
(`"a"` occurs in `"path"`), so "never contains the originally declared
path string" is false as literally stated. -/
theorem C9_none_msg_counterexample :
    validate_process_activity fsNone actPathA =
      Except.error "path 'None' cannot be found, in activity 'x'" ∧
    strContains "path 'None' cannot be found, in activity 'x'" "a" :=
  ⟨rfl, ⟨"p".data, "th 'None' cannot be found, in activity 'x'".data,
    by decide⟩⟩

/-- C9 (amended): when the executable search fails, the `path` variable
has already been overwritten with the absent resolution result, so for
every unresolvable nonempty path the message is exactly
`"path 'None' cannot be found, in activity '<name>'"` — independent of
the declared path, which is never interpolated into it (though it may
coincide with a substring of the fixed text, as in the
counterexample). -/
theorem C9_unresolvable_msg (fs : Fs) (a : Activity) (p : String)
    (he : ercCheckFails a = false)
    (hp : a.provider.path = Option.some p) (hne : p ≠ "")
    (hw : fs.which p = Option.none) :
    validate_process_activity fs a =
      Except.error
        ("path 'None' cannot be found, in activity '" ++ a.name ++ "'") := by
  unfold validate_process_activity
  unfold ercCheckFails at he
  rw [hp]
  simp only [Bool.and_eq_false_imp, Bool.not_eq_false] at he
  by_cases ht : (a.expected_return_code.getD PyVal.none).truthy
  · simp [ht, he ht, hne, hw, pyFormatOpt]
  · simp [ht, hne, hw, pyFormatOpt]

/-- An activity named `w` whose declared path is the string `"b"`. -/
def actPathB : Activity :=
  ⟨"w", ⟨Option.some "b", [], Option.none⟩, Option.none⟩

/-- Witness for `C9_unresolvable_msg` at a concrete activity. -/
theorem C9_unresolvable_msg_witness :
    validate_process_activity fsNone actPathB =
      Except.error "path 'None' cannot be found, in activity 'w'" :=
  C9_unresolvable_msg fsNone actPathB "b" (by decide) rfl (by decide) rfl

/-! ## Claim C4 — timeout produces `FailedActivity`, no partial output -/

/-- C4: whenever the subprocess boundary reports that the wall-clock
deadline elapsed before the spawned process terminated (with the
provider's timeout set), `run` fails with
`FailedActivity("process activity took too long to complete")`; the
error carries only that message, so no partial output is returned. -/
theorem C4_run_timeout (subst : SubstFn) (proc : ProcFn) (fs : Fs)
    (a : Activity) (configuration secrets : ConfMap) (ec : ℤ) (p : String)
    (t : PyVal) (argv : List String)
    (he : pyInt (a.expected_return_code.getD (PyVal.int 0)) =
      Option.some ec)
    (hp : a.provider.path = Option.some p)
    (ht : a.provider.timeout = Option.some t)
    (ha : allStrings
      (whichVal fs p :: processTokens subst configuration secrets a) =
      Option.some argv)
    (hto : proc argv (Option.some t) = ProcResult.timedOut) :
    run_process_activity subst proc fs a configuration secrets =
      Except.error (RunError.failedActivity
        "process activity took too long to complete") := by
  unfold run_process_activity
  rw [he, hp]
  simp only [ht] at *
  simp [ha, hto]

/-- A subprocess oracle on which every spawn hits the deadline. -/
def procTimesOut : ProcFn := fun _ _ => ProcResult.timedOut

/-- An activity with a timeout of 1 second, no arguments, path `"x"`. -/
def actTimed : Activity :=
  ⟨"r", ⟨Option.some "x", [], Option.some (PyVal.int 1)⟩, Option.none⟩

/-- Witness for `C4_run_timeout` at concrete inputs. -/
theorem C4_run_timeout_witness :
    run_process_activity idSubst procTimesOut fsAll actTimed [] [] =
      Except.error (RunError.failedActivity
        "process activity took too long to complete") :=
  C4_run_timeout idSubst procTimesOut fsAll actTimed [] [] 0 "x"
    (PyVal.int 1) ["x"] rfl rfl rfl (by decide) rfl

/-! ## Claim C5 — matching exit code returns the outcome triple -/

/-- C5: if the spawned process terminates with exit code equal to
`expected_return_code` (read with default `0` when the key is absent),
`run` returns the triple `(exit_code, stdout, stderr)` without any
error. -/
theorem C5_run_success (subst : SubstFn) (proc : ProcFn) (fs : Fs)
    (a : Activity) (configuration secrets : ConfMap) (ec : ℤ) (p : String)
    (argv : List String) (out err : String)
    (he : pyInt (a.expected_return_code.getD (PyVal.int 0)) =
      Option.some ec)
    (hp : a.provider.path = Option.some p)
    (ha : allStrings
      (whichVal fs p :: processTokens subst configuration secrets a) =
      Option.some argv)
    (hc : proc argv a.provider.timeout =
      ProcResult.completed ec out err) :
    run_process_activity subst proc fs a configuration secrets =
      Except.ok (ec, out, err) := by
  unfold run_process_activity
  rw [he, hp]
  simp [ha, hc]

/-- A subprocess oracle on which every spawn exits 0 with fixed
output. -/
def procExits0 : ProcFn := fun _ _ => ProcResult.completed 0 "out" "err"

/-- An activity with `expected_return_code` absent (default 0). -/
def actPlain : Activity :=
  ⟨"r5", ⟨Option.some "x", [], Option.none⟩, Option.none⟩

/-- Witness for `C5_run_success` at concrete inputs. -/
theorem C5_run_success_witness :
    run_process_activity idSubst procExits0 fsAll actPlain [] [] =
      Except.ok (0, "out", "err") :=
  C5_run_success idSubst procExits0 fsAll actPlain [] [] 0 "x" ["x"]
    "out" "err" rfl rfl (by decide) rfl

/-! ## Claim C6 — mismatching exit code fails with a diagnostic message -/

/-- C6: if the spawned process terminates with an exit code different
from `expected_return_code`, `run` fails with `FailedActivity` whose
message contains the actual exit code, the expected exit code, and the
full captured stdout and stderr. -/
theorem C6_run_mismatch (subst : SubstFn) (proc : ProcFn) (fs : Fs)
    (a : Activity) (configuration secrets : ConfMap) (ec : ℤ) (p : String)
    (argv : List String) (rc : ℤ) (out err : String)
    (he : pyInt (a.expected_return_code.getD (PyVal.int 0)) =
      Option.some ec)
    (hp : a.provider.path = Option.some p)
    (ha : allStrings
      (whichVal fs p :: processTokens subst configuration secrets a) =
      Option.some argv)
    (hc : proc argv a.provider.timeout =
      ProcResult.completed rc out err)
    (hne : rc ≠ ec) :
    run_process_activity subst proc fs a configuration secrets =
      Except.error
        (RunError.failedActivity (mismatchMsg rc ec out err)) ∧
    strContains (mismatchMsg rc ec out err) (toString rc) ∧
    strContains (mismatchMsg rc ec out err) (toString ec) ∧
    strContains (mismatchMsg rc ec out err) out ∧
    strContains (mismatchMsg rc ec out err) err := by
  have hne' : ec ≠ rc := Ne.symm hne
  refine ⟨?_, ?_, ?_, ?_, ?_⟩
  · unfold run_process_activity
    rw [he, hp]
    simp [ha, hc, hne']
  · exact ⟨"process activity failed with return code ".data,
      (" (expected " ++ toString ec ++ ")\nSTDOUT: " ++ out ++
        "\nSTDERR: " ++ err).data, by simp [mismatchMsg]⟩
  · exact ⟨("process activity failed with return code " ++ toString rc ++
      " (expected ").data,
      (")\nSTDOUT: " ++ out ++ "\nSTDERR: " ++ err).data,
      by simp [mismatchMsg]⟩
  · exact ⟨("process activity failed with return code " ++ toString rc ++
      " (expected " ++ toString ec ++ ")\nSTDOUT: ").data,
      ("\nSTDERR: " ++ err).data, by simp [mismatchMsg]⟩
  · exact ⟨("process activity failed with return code " ++ toString rc ++
      " (expected " ++ toString ec ++ ")\nSTDOUT: " ++ out ++
      "\nSTDERR: ").data, [], by simp [mismatchMsg]⟩

/-- A subprocess oracle on which every spawn exits 1 with fixed
output. -/
def procExits1 : ProcFn := fun _ _ => ProcResult.completed 1 "sout" "serr"

/-- Witness for `C6_run_mismatch` at concrete inputs (actual code 1,
expected 0). -/
theorem C6_run_mismatch_witness :
    run_process_activity idSubst procExits1 fsAll actPlain [] [] =
      Except.error
        (RunError.failedActivity (mismatchMsg 1 0 "sout" "serr")) ∧
    strContains (mismatchMsg 1 0 "sout" "serr") (toString (1 : ℤ)) ∧
    strContains (mismatchMsg 1 0 "sout" "serr") (toString (0 : ℤ)) ∧
    strContains (mismatchMsg 1 0 "sout" "serr") "sout" ∧
    strContains (mismatchMsg 1 0 "sout" "serr") "serr" :=
  C6_run_mismatch idSubst procExits1 fsAll actPlain [] [] 0 "x" ["x"] 1
    "sout" "serr" rfl rfl (by decide) rfl (by decide)

/-! ## Claim C7 — when substitution is applied -/

/-- C7: the command-line tokens `run` computes are obtained from the
provider's arguments mapping passed through `substitute` exactly when
`configuration` or `secrets` is non-empty, and from the unchanged
mapping when both are empty. -/
theorem C7_substitution_gate (subst : SubstFn)
    (configuration secrets : ConfMap) (a : Activity) :
    processTokens subst configuration secrets a =
      (flattenArgs
        (if configuration = [] ∧ secrets = [] then a.provider.arguments
         else subst a.provider.arguments configuration secrets)).filter
        keepToken := by
  unfold processTokens effectiveArguments
  cases configuration <;> cases secrets <;> simp

/-! ## Claim C10 — `int()` coercion of `expected_return_code` in `run` -/

/-- C10: `run` coerces `expected_return_code` with Python's `int()`
before comparing: the string `"3"` and the float `3.9` both convert to
`3`; when conversion succeeds the comparison with the exit code uses the
converted integer; when the present value is not convertible, `run`
fails with the embedded `TypeError`/`ValueError` — an error that is
neither `InvalidActivity` (absent from `run`'s error type altogether)
nor `FailedActivity`. -/
theorem C10_int_coercion (subst : SubstFn) (proc : ProcFn) (fs : Fs)
    (a : Activity) (configuration secrets : ConfMap) :
    pyInt (PyVal.str "3") = Option.some 3 ∧
    pyInt (PyVal.float (39 / 10 : ℚ)) = Option.some 3 ∧
    (pyInt (a.expected_return_code.getD (PyVal.int 0)) = Option.none →
      run_process_activity subst proc fs a configuration secrets =
        Except.error (RunError.pyError
          "int() argument is not an integer literal or number") ∧
      ∀ m, run_process_activity subst proc fs a configuration secrets ≠
        Except.error (RunError.failedActivity m)) ∧
    (∀ (ec : ℤ) (p : String) (argv : List String) (rc : ℤ)
      (out err : String),
      pyInt (a.expected_return_code.getD (PyVal.int 0)) =
        Option.some ec →
      a.provider.path = Option.some p →
      allStrings
        (whichVal fs p :: processTokens subst configuration secrets a) =
        Option.some argv →
      proc argv a.provider.timeout = ProcResult.completed rc out err →
      (run_process_activity subst proc fs a configuration secrets =
        Except.ok (rc, out, err) ↔ ec = rc)) := by
  refine ⟨by decide, pyInt_float_39_10, ?_, ?_⟩
  · intro h
    constructor
    · unfold run_process_activity
      simp [h]
    · intro m
      unfold run_process_activity
      simp [h]
  · intro ec p argv rc out err he hp ha hc
    unfold run_process_activity
    rw [he, hp]
    by_cases hceq : ec = rc <;> simp [ha, hc, hceq]

/-- An activity whose `expected_return_code` is the non-convertible
string `"abc"`. -/
def actBadErc : Activity :=
  ⟨"r10", ⟨Option.some "x", [], Option.none⟩,
    Option.some (PyVal.str "abc")⟩

/-- Witness for `C10_int_coercion` at a concrete activity. -/
theorem C10_int_coercion_witness :
    run_process_activity idSubst procExits0 fsAll actBadErc [] [] =
      Except.error (RunError.pyError
        "int() argument is not an integer literal or number") :=
  ((C10_int_coercion idSubst procExits0 fsAll actBadErc [] []).2.2.1
    (by decide)).1

end ChaosProcess
